import Mathlib

/-!
Verification development for the completion-client core of
`src/solar_assistant.py` (class `SolarAssistant`).

The embedding models the Python values flowing through
`SolarAssistant._async_get_response`:

* `Json` is the image of `response.json()` / the request payload dict.
  JSON objects produced by Python's `json.loads` have pairwise distinct
  keys (a repeated key keeps the last binding), so an object value is a
  plain association list and `lookupField` takes the first binding, which
  for such objects is the unique one.  JSON numbers are modelled as exact
  rationals (the source only ever writes the literals `0.7` and `500`).
* The Python operations the source applies to those values (`in`,
  subscripting, `len`, `[0]`, `.get`) are partial; each is embedded as a
  function into `Except String`, where `Except.error d` stands for a raised
  exception whose `str()` is `d`.  The description strings are
  representative of CPython's messages (quotes elided).
* Raising and catching inside the `try:` block of `_async_get_response`
  is the `Except String` monad; the final `except Exception` clause is
  `finalize`, which converts any in-flight exception into the
  `"An error occurred: "` string the source returns.
-/

/-- A parsed JSON value, as produced by `response.json()` in the source. -/
inductive Json where
  | null : Json
  | bool (b : Bool) : Json
  | num (q : ℚ) : Json
  | str (s : String) : Json
  | arr (elems : List Json) : Json
  | obj (fields : List (String × Json)) : Json

/-- The Python type name of a value, used in exception descriptions.
A rational with denominator 1 corresponds to a Python `int`. -/
def typeName : Json → String
  | Json.null => "NoneType"
  | Json.bool _ => "bool"
  | Json.num q => if q.den = 1 then "int" else "float"
  | Json.str _ => "str"
  | Json.arr _ => "list"
  | Json.obj _ => "dict"

/-- Substring test: Python's `needle in haystack` on two `str` values.
The empty needle is contained in every string. -/
def strContains (haystack needle : String) : Bool :=
  needle == "" || decide (1 < (haystack.splitOn needle).length)

/-- First binding of a key in a JSON object's field list (unique for
objects that come out of `json.loads`). -/
def lookupField : List (String × Json) → String → Option Json
  | [], _ => none
  | (k, v) :: rest, key => if k = key then some v else lookupField rest key

mutual

/-- Python `repr()` of a JSON value (string escaping elided; numbers are
shown by their numerator when integral).  Only used to render values into
log lines and error strings. -/
def pyRepr : Json → String
  | Json.null => "None"
  | Json.bool true => "True"
  | Json.bool false => "False"
  | Json.num q => if q.den = 1 then toString q.num else toString q
  | Json.str s => "\x27" ++ s ++ "\x27"
  | Json.arr elems => "[" ++ String.intercalate ", " (pyReprList elems) ++ "]"
  | Json.obj fields => "\x7b" ++ String.intercalate ", " (pyReprFields fields) ++ "\x7d"

/-- `pyRepr` mapped over a list of values. -/
def pyReprList : List Json → List String
  | [] => []
  | v :: rest => pyRepr v :: pyReprList rest

/-- `pyRepr` mapped over an object's fields, rendered `key: value`. -/
def pyReprFields : List (String × Json) → List String
  | [] => []
  | (k, v) :: rest => ("\x27" ++ k ++ "\x27: " ++ pyRepr v) :: pyReprFields rest

end

/-- Python `str()` of a JSON value: a string renders as itself, anything
else as its `repr`.  This is what an f-string interpolation applies. -/
def pyStr : Json → String
  | Json.str s => s
  | v => pyRepr v

/-- Python's `key in value` for a string key, as the source uses it on
`response_data`, `choice` and `choice['message']`: key membership for a
dict, element equality for a list, substring test for a string, and a
`TypeError` for the remaining types. -/
def pyContains (v : Json) (key : String) : Except String Bool :=
  match v with
  | Json.obj fields => Except.ok (lookupField fields key).isSome
  | Json.arr elems =>
      Except.ok (elems.any (fun e => match e with
        | Json.str s => s == key
        | _ => false))
  | Json.str s => Except.ok (strContains s key)
  | other => Except.error ("argument of type " ++ typeName other ++ " is not iterable")

/-- Python's `value[key]` for a string key: dict lookup (a `KeyError` when
absent), a `TypeError` for every other type. -/
def pySubscr (v : Json) (key : String) : Except String Json :=
  match v with
  | Json.obj fields =>
      match lookupField fields key with
      | some w => Except.ok w
      | none => Except.error ("KeyError: " ++ key)
  | Json.arr _ => Except.error "list indices must be integers or slices, not str"
  | Json.str _ => Except.error "string indices must be integers"
  | other => Except.error (typeName other ++ " object is not subscriptable")

/-- Python's `len(value)`: defined on dicts, lists and strings, a
`TypeError` elsewhere. -/
def pyLen (v : Json) : Except String Nat :=
  match v with
  | Json.obj fields => Except.ok fields.length
  | Json.arr elems => Except.ok elems.length
  | Json.str s => Except.ok s.length
  | other => Except.error ("object of type " ++ typeName other ++ " has no len()")

/-- Python's `value[0]`, as applied to `response_data['choices']`: first
element of a list, first character of a string, a `KeyError` on a dict
(JSON object keys are strings, never the integer `0`), a `TypeError`
elsewhere. -/
def pyIndex0 (v : Json) : Except String Json :=
  match v with
  | Json.arr elems =>
      match elems with
      | e :: _ => Except.ok e
      | [] => Except.error "list index out of range"
  | Json.str s =>
      if s.length = 0 then Except.error "string index out of range"
      else Except.ok (Json.str (s.take 1))
  | Json.obj _ => Except.error "KeyError: 0"
  | other => Except.error (typeName other ++ " object is not subscriptable")

/-- Python's `value.get(key, default)`: only dicts have the attribute. -/
def pyGet (v : Json) (key : String) (dflt : Json) : Except String Json :=
  match v with
  | Json.obj fields => Except.ok ((lookupField fields key).getD dflt)
  | other => Except.error (typeName other ++ " object has no attribute get")

/-- The result abstraction of the spec's data model: `_async_get_response`
returns a plain Python value, and each `return` site is either one of the
three normalized error strings (`Failure`) or the raw value extracted from
a completion choice (`Answer`).  The tag records which return site fired;
`Outcome.render` below recovers the literal Python return value. -/
inductive Outcome where
  | Answer (content : Json) : Outcome
  | Failure (message : String) : Outcome

/-- The literal Python value returned by the source at the tagged site. -/
def Outcome.render : Outcome → Json
  | Outcome.Answer v => v
  | Outcome.Failure m => Json.str m

/-- Whether the outcome is the `Answer` variant. -/
def Outcome.isAnswer : Outcome → Bool
  | Outcome.Answer _ => true
  | Outcome.Failure _ => false

/-- Whether the outcome is the `Failure` variant. -/
def Outcome.isFailure : Outcome → Bool
  | Outcome.Answer _ => false
  | Outcome.Failure _ => true

/-- State built by `SolarAssistant.__init__` (lines 13-17 of the source). -/
structure SolarAssistant where
  api_key : String
  api_base : String

/-- `SolarAssistant.__init__`: reads `OPENROUTER_API_KEY` from the
environment (`none` models an unset variable) and raises `ValueError`
unless the value is truthy — both an unset variable (`None`) and the empty
string are falsy in Python, so both raise. -/
def SolarAssistant.build (envApiKey : Option String) : Except String SolarAssistant :=
  match envApiKey with
  | none => Except.error "OpenRouter API key not found in environment variables"
  | some k =>
      if k = "" then Except.error "OpenRouter API key not found in environment variables"
      else Except.ok { api_key := k, api_base := "https://openrouter.ai/api/v1" }

/-- `SolarAssistant._generate_system_prompt` (lines 26-27). -/
def generate_system_prompt : String :=
  "You are a specialized solar industry consultant AI assistant. Provide accurate, practical advice while adapting your responses to the user\x27s technical expertise level."

/-- The request payload `data` built at lines 38-46 of the source. -/
def requestData (query user_expertise : String) : Json :=
  Json.obj
    [("model", Json.str "mistralai/mistral-7b-instruct"),
     ("messages", Json.arr
       [Json.obj [("role", Json.str "system"), ("content", Json.str generate_system_prompt)],
        Json.obj [("role", Json.str "user"),
          ("content", Json.str ("User expertise level: " ++ user_expertise ++ "\nQuery: " ++ query))]]),
     ("temperature", Json.num 0.7),
     ("max_tokens", Json.num 500)]

/-- The request headers built at lines 31-35 of the source. -/
def requestHeaders (api_key : String) : List (String × String) :=
  [("Authorization", "Bearer " ++ api_key),
   ("Content-Type", "application/json"),
   ("HTTP-Referer", "https://localhost:7860")]

/-- The single outbound HTTPS POST issued at lines 51-55. -/
structure HttpRequest where
  url : String
  headers : List (String × String)
  body : Json

/-- The request `_async_get_response` posts for a given query and
expertise level. -/
def postRequest (a : SolarAssistant) (query user_expertise : String) : HttpRequest :=
  { url := a.api_base ++ "/chat/completions",
    headers := requestHeaders a.api_key,
    body := requestData query user_expertise }

/-- What the transport does with the posted request: either
`client.post` raises (connection error / timeout, carrying the
exception's description), or a response arrives with a status code and a
raw text body, whose `response.json()` parse either succeeds with a
`Json` value or raises (malformed body). -/
inductive HttpResult where
  | transportError (desc : String) : HttpResult
  | response (status : Nat) (text : String) (parsed : Except String Json) : HttpResult

/-- A record the source hands to the logging module: `logging.debug`
(lines 48, 57, 59) or `logging.exception` (line 77). -/
inductive LogEvent where
  | debug (msg : String) : LogEvent
  | exc (msg : String) : LogEvent

/-- The condition of line 69, `'message' in choice and 'content' in
choice['message']`, with Python's short-circuit: the second conjunct (and
its subscription) is only evaluated when the first holds. -/
def msgContentCond (choice : Json) : Except String Bool := do
  let hasMsg ← pyContains choice "message"
  if hasMsg then
    let msg ← pySubscr choice "message"
    pyContains msg "content"
  else
    pure false

/-- Lines 63-74 of the source: dispatch on the parsed response body.
`'error' in response_data` wins over everything; then
`'choices' in response_data and len(response_data['choices']) > 0`
guards the two recognized choice shapes (only `choices[0]` is ever
inspected); anything unmatched is the format-error string. -/
def handleBody (response_data : Json) : Except String Outcome := do
  let hasErr ← pyContains response_data "error"
  if hasErr then
    let errVal ← pySubscr response_data "error"
    let errMsg ← pyGet errVal "message" (Json.str "Unknown error")
    pure (Outcome.Failure ("API error: " ++ pyStr errMsg))
  else
    let hasChoices ← pyContains response_data "choices"
    if hasChoices then
      let choices ← pySubscr response_data "choices"
      let n ← pyLen choices
      if 0 < n then
        let choice ← pyIndex0 choices
        let cond ← msgContentCond choice
        if cond then
          let msg ← pySubscr choice "message"
          let content ← pySubscr msg "content"
          pure (Outcome.Answer content)
        else
          let hasText ← pyContains choice "text"
          if hasText then
            let t ← pySubscr choice "text"
            pure (Outcome.Answer t)
          else
            pure (Outcome.Failure "Error: Unexpected response format from API")
      else
        pure (Outcome.Failure "Error: Unexpected response format from API")
    else
      pure (Outcome.Failure "Error: Unexpected response format from API")

/-- The body of the `try:` block of `_async_get_response` (lines 30-74):
the outcome-or-exception it produces, paired with the log records it asks
the logging module to write along the way.  A `logging.debug` call never
raises into this code — the logging module handles I/O failures of its
handlers internally (`Handler.handleError`) — so logging is pure record
emission here. -/
def tryBody (a : SolarAssistant) (query user_expertise : String)
    (up : HttpRequest → HttpResult) : Except String Outcome × List LogEvent :=
  let reqLog := LogEvent.debug
    ("Sending request with data: " ++ pyStr (requestData query user_expertise))
  match up (postRequest a query user_expertise) with
  | HttpResult.transportError desc => (Except.error desc, [reqLog])
  | HttpResult.response status text parsed =>
      let statusLog := LogEvent.debug ("Response status code: " ++ toString status)
      let rawLog := LogEvent.debug ("Raw response: " ++ text)
      match parsed with
      | Except.error desc => (Except.error desc, [reqLog, statusLog, rawLog])
      | Except.ok response_data => (handleBody response_data, [reqLog, statusLog, rawLog])

/-- The `except Exception` clause (lines 76-78): any exception raised in
the try body is caught and converted to the transport-failure string. -/
def finalize : Except String Outcome → Outcome
  | Except.ok o => o
  | Except.error e => Outcome.Failure ("An error occurred: " ++ e)

/-- Log records that actually land in the log file: `sink n` tells whether
the n-th write succeeds.  A failed write loses the record but, per the
logging module's contract, raises nothing into the caller. -/
def written (sink : Nat → Bool) (logs : List LogEvent) : List LogEvent :=
  (logs.enum.filter (fun p => sink p.1)).map (fun p => p.2)

/-- `SolarAssistant._async_get_response` (lines 29-78): the outcome
delivered to the caller together with the log records that were written.
On an exception the source also calls `logging.exception` before
returning the converted failure string. -/
def async_get_response (a : SolarAssistant) (sink : Nat → Bool)
    (query user_expertise : String) (up : HttpRequest → HttpResult) :
    Outcome × List LogEvent :=
  (finalize (tryBody a query user_expertise up).1,
   written sink
     ((tryBody a query user_expertise up).2 ++
      (match (tryBody a query user_expertise up).1 with
       | Except.ok _ => []
       | Except.error _ => [LogEvent.exc "Error in API call:"])))

/-- `SolarAssistant.get_response` (lines 80-88), the spec's `complete`:
the synchronous wrapper runs `_async_get_response` to completion on a
fresh event loop and hands its value through unchanged. -/
def get_response (a : SolarAssistant) (query user_expertise : String)
    (up : HttpRequest → HttpResult) : Outcome :=
  (async_get_response a (fun _ => true) query user_expertise up).1

/-- Top-level keys of a JSON object, in order; used to state that the
request payload carries exactly the four parameters the source writes. -/
def topKeys : Json → List String
  | Json.obj fields => fields.map Prod.fst
  | _ => []

theorem helperBindOk {α β : Type} (x : α) (f : α → Except String β) :
    (Except.ok x : Except String α) >>= f = f x := rfl

theorem helperBindErr {α β : Type} (e : String) (f : α → Except String β) :
    (Except.error e : Except String α) >>= f = Except.error e := rfl

theorem helperPure {α : Type} (x : α) :
    (pure x : Except String α) = Except.ok x := rfl

/-- With a mocked upstream delivering a parsed body, `get_response` is
the catch-wrapped body dispatch. -/
theorem helperGetResponseBody (a : SolarAssistant) (q ue : String) (st : Nat)
    (txt : String) (rd : Json) :
    get_response a q ue (fun _ => HttpResult.response st txt (Except.ok rd))
      = finalize (handleBody rd) := rfl

/-- Claim C3: a parsed body whose top-level `error` member is an object
makes `complete` return `Failure ("API error: <message>")`, where the
message is the error object's `message` member rendered by `str()` (so a
string message verbatim) and defaults to `"Unknown error"` when absent;
the remaining body members — in particular any `choices` — are never
consulted. -/
theorem error_indicator_precedence (a : SolarAssistant) (q ue : String) (st : Nat)
    (txt : String) (bodyFields errFields : List (String × Json))
    (he : lookupField bodyFields "error" = some (Json.obj errFields)) :
    get_response a q ue (fun _ => HttpResult.response st txt (Except.ok (Json.obj bodyFields)))
      = Outcome.Failure
          ("API error: " ++ pyStr ((lookupField errFields "message").getD (Json.str "Unknown error"))) := by
  rw [helperGetResponseBody]
  simp [handleBody, pyContains, pySubscr, pyGet, he, helperBindOk, helperPure, finalize]

/-- Witness for C3 at the body
`{"error": {"message": "bad key"}, "choices": [{"message": {"content": "X"}}]}`:
the error member is an object, and the result is
`Failure "API error: bad key"` even though a well-formed choice is also
present. -/
theorem error_indicator_precedence_witness :
    lookupField
        [("error", Json.obj [("message", Json.str "bad key")]),
         ("choices", Json.arr [Json.obj [("message", Json.obj [("content", Json.str "X")])]])]
        "error" = some (Json.obj [("message", Json.str "bad key")]) ∧
    get_response { api_key := "k", api_base := "https://openrouter.ai/api/v1" } "q" "general"
        (fun _ => HttpResult.response 200 "" (Except.ok (Json.obj
          [("error", Json.obj [("message", Json.str "bad key")]),
           ("choices", Json.arr [Json.obj [("message", Json.obj [("content", Json.str "X")])]])])))
      = Outcome.Failure "API error: bad key" :=
  ⟨rfl,
   error_indicator_precedence
     { api_key := "k", api_base := "https://openrouter.ai/api/v1" } "q" "general" 200 ""
     [("error", Json.obj [("message", Json.str "bad key")]),
      ("choices", Json.arr [Json.obj [("message", Json.obj [("content", Json.str "X")])]])]
     [("message", Json.str "bad key")] rfl⟩

/-- Claim C1 (amended): for a parsed body with no top-level `error` member
whose `choices` member is a non-empty list whose FIRST element is an
object exposing a `message` object with a `content` member, `complete`
returns `Answer` with that content.  (The claim as frozen quantifies over
"at least one" choice; the code only ever inspects `choices[0]`, see the
counterexample below.) -/
theorem first_choice_message_content_answer (a : SolarAssistant) (q ue : String)
    (st : Nat) (txt : String)
    (bodyFields choiceFields msgFields : List (String × Json)) (rest : List Json) (v : Json)
    (hne : lookupField bodyFields "error" = none)
    (hch : lookupField bodyFields "choices" = some (Json.arr (Json.obj choiceFields :: rest)))
    (hm : lookupField choiceFields "message" = some (Json.obj msgFields))
    (hc : lookupField msgFields "content" = some v) :
    get_response a q ue (fun _ => HttpResult.response st txt (Except.ok (Json.obj bodyFields)))
      = Outcome.Answer v := by
  rw [helperGetResponseBody]
  simp [handleBody, msgContentCond, pyContains, pySubscr, pyLen, pyIndex0,
    hne, hch, hm, hc, helperBindOk, helperPure, finalize]

/-- Witness for C1 at the spec's own example body
`{"choices": [{"message": {"content": "X"}}]}`: the result is
`Answer "X"`. -/
theorem first_choice_message_content_answer_witness :
    lookupField [("choices", Json.arr [Json.obj [("message", Json.obj [("content", Json.str "X")])]])]
        "error" = none ∧
    lookupField [("choices", Json.arr [Json.obj [("message", Json.obj [("content", Json.str "X")])]])]
        "choices" = some (Json.arr [Json.obj [("message", Json.obj [("content", Json.str "X")])]]) ∧
    lookupField [("message", Json.obj [("content", Json.str "X")])] "message"
      = some (Json.obj [("content", Json.str "X")]) ∧
    lookupField [("content", Json.str "X")] "content" = some (Json.str "X") ∧
    get_response { api_key := "k", api_base := "https://openrouter.ai/api/v1" } "q" "general"
        (fun _ => HttpResult.response 200 "" (Except.ok (Json.obj
          [("choices", Json.arr [Json.obj [("message", Json.obj [("content", Json.str "X")])]])])))
      = Outcome.Answer (Json.str "X") :=
  ⟨rfl, rfl, rfl, rfl,
   first_choice_message_content_answer
     { api_key := "k", api_base := "https://openrouter.ai/api/v1" } "q" "general" 200 ""
     [("choices", Json.arr [Json.obj [("message", Json.obj [("content", Json.str "X")])]])]
     [("message", Json.obj [("content", Json.str "X")])]
     [("content", Json.str "X")] [] (Json.str "X") rfl rfl rfl rfl⟩

/-- Claim C1 as frozen is false on the code: the body
`{"choices": [{}, {"message": {"content": "X"}}]}` has no error member
and contains a completion choice exposing a message with content `"X"`
(its second choice), so the claim demands `Answer "X"`; but the code only
inspects `choices[0]`, which matches nothing, and returns the
format-error failure instead. -/
theorem second_choice_message_content_ignored :
    Json.obj [("message", Json.obj [("content", Json.str "X")])]
        ∈ [Json.obj [], Json.obj [("message", Json.obj [("content", Json.str "X")])]] ∧
    lookupField
        [("choices", Json.arr [Json.obj [], Json.obj [("message", Json.obj [("content", Json.str "X")])]])]
        "error" = none ∧
    get_response { api_key := "k", api_base := "https://openrouter.ai/api/v1" } "q" "general"
        (fun _ => HttpResult.response 200 "" (Except.ok (Json.obj
          [("choices", Json.arr
            [Json.obj [], Json.obj [("message", Json.obj [("content", Json.str "X")])]])])))
      = Outcome.Failure "Error: Unexpected response format from API" :=
  ⟨List.Mem.tail _ (List.Mem.head _), rfl, rfl⟩

/-- Claim C4 (amended): for a parsed body with no top-level `error` member
whose `choices` member is a non-empty list whose FIRST element is an
object on which the message-with-content condition of line 69 evaluates
to false without raising and which carries a `text` member, `complete`
returns `Answer` with that text.  (The claim as frozen lets any choice
supply the text field; the code only ever inspects `choices[0]`, see the
counterexample below.) -/
theorem first_choice_text_answer (a : SolarAssistant) (q ue : String)
    (st : Nat) (txt : String)
    (bodyFields choiceFields : List (String × Json)) (rest : List Json) (t : Json)
    (hne : lookupField bodyFields "error" = none)
    (hch : lookupField bodyFields "choices" = some (Json.arr (Json.obj choiceFields :: rest)))
    (hmc : msgContentCond (Json.obj choiceFields) = Except.ok false)
    (ht : lookupField choiceFields "text" = some t) :
    get_response a q ue (fun _ => HttpResult.response st txt (Except.ok (Json.obj bodyFields)))
      = Outcome.Answer t := by
  rw [helperGetResponseBody]
  simp [handleBody, pyContains, pySubscr, pyLen, pyIndex0,
    hne, hch, hmc, ht, helperBindOk, helperPure, finalize]

/-- Witness for C4 at the spec's own example body
`{"choices": [{"text": "Y"}]}`: the result is `Answer "Y"`. -/
theorem first_choice_text_answer_witness :
    lookupField [("choices", Json.arr [Json.obj [("text", Json.str "Y")]])] "error" = none ∧
    lookupField [("choices", Json.arr [Json.obj [("text", Json.str "Y")]])] "choices"
      = some (Json.arr [Json.obj [("text", Json.str "Y")]]) ∧
    msgContentCond (Json.obj [("text", Json.str "Y")]) = Except.ok false ∧
    lookupField [("text", Json.str "Y")] "text" = some (Json.str "Y") ∧
    get_response { api_key := "k", api_base := "https://openrouter.ai/api/v1" } "q" "general"
        (fun _ => HttpResult.response 200 "" (Except.ok (Json.obj
          [("choices", Json.arr [Json.obj [("text", Json.str "Y")]])])))
      = Outcome.Answer (Json.str "Y") :=
  ⟨rfl, rfl, rfl, rfl,
   first_choice_text_answer
     { api_key := "k", api_base := "https://openrouter.ai/api/v1" } "q" "general" 200 ""
     [("choices", Json.arr [Json.obj [("text", Json.str "Y")]])]
     [("text", Json.str "Y")] [] (Json.str "Y") rfl rfl rfl rfl⟩

/-- Claim C4 as frozen is false on the code: the body
`{"choices": [{}, {"text": "Y"}]}` has no error member, none of its
choices exposes a message with content, and its second choice exposes the
flat text `"Y"`, so the claim demands `Answer "Y"`; but the code only
inspects `choices[0]`, which matches nothing, and returns the
format-error failure instead. -/
theorem second_choice_text_ignored :
    Json.obj [("text", Json.str "Y")] ∈ [Json.obj [], Json.obj [("text", Json.str "Y")]] ∧
    lookupField [("choices", Json.arr [Json.obj [], Json.obj [("text", Json.str "Y")]])]
        "error" = none ∧
    get_response { api_key := "k", api_base := "https://openrouter.ai/api/v1" } "q" "general"
        (fun _ => HttpResult.response 200 "" (Except.ok (Json.obj
          [("choices", Json.arr [Json.obj [], Json.obj [("text", Json.str "Y")]])])))
      = Outcome.Failure "Error: Unexpected response format from API" :=
  ⟨List.Mem.tail _ (List.Mem.head _), rfl, rfl⟩

/-- Claim C5 (amended): for a parsed body that is a JSON object with no
`error` member and whose `choices` member is absent, an empty list, or a
non-empty list whose first element is an object that neither satisfies
the message-with-content condition nor carries a `text` member,
`complete` returns `Failure "Error: Unexpected response format from API"`.
(The claim as frozen covers every body matching no recognized shape; a
body whose malformed structure makes one of the shape checks raise — for
example a non-list `choices` member — instead yields the
`"An error occurred: "` transport-failure string, see the counterexample
below.) -/
theorem unmatched_shape_format_failure (a : SolarAssistant) (q ue : String)
    (st : Nat) (txt : String) (bodyFields : List (String × Json))
    (hne : lookupField bodyFields "error" = none)
    (hch : lookupField bodyFields "choices" = none ∨
           lookupField bodyFields "choices" = some (Json.arr []) ∨
           ∃ choiceFields rest,
             lookupField bodyFields "choices" = some (Json.arr (Json.obj choiceFields :: rest)) ∧
             msgContentCond (Json.obj choiceFields) = Except.ok false ∧
             lookupField choiceFields "text" = none) :
    get_response a q ue (fun _ => HttpResult.response st txt (Except.ok (Json.obj bodyFields)))
      = Outcome.Failure "Error: Unexpected response format from API" := by
  rw [helperGetResponseBody]
  rcases hch with hch | hch | ⟨choiceFields, rest, hch, hmc, ht⟩ <;>
    simp [handleBody, pyContains, pySubscr, pyLen, pyIndex0,
      hne, hch, helperBindOk, helperPure, finalize]
  simp [hmc, ht, helperBindOk, helperPure]

/-- Witness for C5 at the spec's own example body `{}`: the result is the
format-error failure. -/
theorem unmatched_shape_format_failure_witness :
    lookupField ([] : List (String × Json)) "error" = none ∧
    lookupField ([] : List (String × Json)) "choices" = none ∧
    get_response { api_key := "k", api_base := "https://openrouter.ai/api/v1" } "q" "general"
        (fun _ => HttpResult.response 200 "" (Except.ok (Json.obj [])))
      = Outcome.Failure "Error: Unexpected response format from API" :=
  ⟨rfl, rfl,
   unmatched_shape_format_failure
     { api_key := "k", api_base := "https://openrouter.ai/api/v1" } "q" "general" 200 ""
     [] rfl (Or.inl rfl)⟩

/-- Claim C5 as frozen is false on the code: the body `{"choices": 5}`
contains neither an error indicator nor any choice matching a recognized
shape (it has no choices at all), so the claim demands the format-error
failure; but `len(response_data['choices'])` raises a `TypeError`, which
the catch-all clause converts to the transport-failure string instead. -/
theorem nonlist_choices_raises_not_format_failure :
    lookupField [("choices", Json.num 5)] "error" = none ∧
    get_response { api_key := "k", api_base := "https://openrouter.ai/api/v1" } "q" "general"
        (fun _ => HttpResult.response 200 "" (Except.ok (Json.obj [("choices", Json.num 5)])))
      = Outcome.Failure "An error occurred: object of type int has no len()" :=
  ⟨rfl, rfl⟩

/-- Claim C2: for every query, every expertise-level string and every
upstream behaviour, `complete` returns exactly one of `Answer` or
`Failure` (the two classifiers disagree on every result), and no
exception escapes: the result is always the catch-wrapped value of the
try body, whose in-flight exceptions `finalize` converts to `Failure`
strings — `get_response` is total by construction. -/
theorem complete_exactly_one_variant (a : SolarAssistant) (q ue : String)
    (up : HttpRequest → HttpResult) :
    Bool.xor (get_response a q ue up).isAnswer (get_response a q ue up).isFailure = true ∧
    get_response a q ue up = finalize (tryBody a q ue up).1 := by
  refine ⟨?_, rfl⟩
  cases get_response a q ue up <;> rfl

/-- Claim C6: every transport-level failure — `client.post` raising
(connection error, timeout) or `response.json()` raising on a malformed
body — is caught and surfaced as `Failure ("An error occurred: <description>")`. -/
theorem transport_failure_error_message (a : SolarAssistant) (q ue d : String)
    (st : Nat) (txt : String) :
    get_response a q ue (fun _ => HttpResult.transportError d)
      = Outcome.Failure ("An error occurred: " ++ d) ∧
    get_response a q ue (fun _ => HttpResult.response st txt (Except.error d))
      = Outcome.Failure ("An error occurred: " ++ d) :=
  ⟨rfl, rfl⟩

/-- Claim C7: with the bearer-credential environment variable absent, the
constructor raises `ValueError` and no `SolarAssistant` value exists, so
no completion call can ever be attempted with a missing credential. -/
theorem missing_credential_fails_fast :
    SolarAssistant.build none
      = Except.error "OpenRouter API key not found in environment variables" ∧
    (SolarAssistant.build none).toOption = none :=
  ⟨rfl, rfl⟩

/-- Claim C10: the credential check is a Python falsiness test, so an
empty-string credential fails construction exactly like an absent one,
with the same error. -/
theorem empty_credential_fails_fast :
    SolarAssistant.build (some "")
      = Except.error "OpenRouter API key not found in environment variables" ∧
    SolarAssistant.build (some "") = SolarAssistant.build none :=
  ⟨rfl, rfl⟩

/-- Claim C8: for every query and expertise-level string the request body
carries the fixed model identifier, exactly the two messages — the
constant system instruction and a user message whose content is the plain
text `User expertise level: <expertiseLevel>\nQuery: <query>` —
temperature `0.7` and `max_tokens` `500`; its top-level keys are exactly
those four parameters, so the expertise level reaches the API only inside
the prompt text. -/
theorem request_body_shape (q ue : String) :
    pySubscr (requestData q ue) "model" = Except.ok (Json.str "mistralai/mistral-7b-instruct") ∧
    pySubscr (requestData q ue) "messages" = Except.ok (Json.arr
      [Json.obj [("role", Json.str "system"), ("content", Json.str generate_system_prompt)],
       Json.obj [("role", Json.str "user"),
         ("content", Json.str ("User expertise level: " ++ ue ++ "\nQuery: " ++ q))]]) ∧
    pySubscr (requestData q ue) "temperature" = Except.ok (Json.num 0.7) ∧
    pySubscr (requestData q ue) "max_tokens" = Except.ok (Json.num 500) ∧
    topKeys (requestData q ue) = ["model", "messages", "temperature", "max_tokens"] ∧
    (postRequest { api_key := "k", api_base := "https://openrouter.ai/api/v1" } q ue).body
      = requestData q ue :=
  ⟨rfl, rfl, rfl, rfl, rfl, rfl⟩

/-- Claim C9: the outcome of `complete` does not depend on which of the
debug-logging writes succeed — under any two logging-failure patterns the
returned variant and string are identical.  (A failing handler write is
swallowed inside the logging module and loses only the log record.) -/
theorem logging_failures_do_not_affect_outcome (a : SolarAssistant)
    (sink1 sink2 : Nat → Bool) (q ue : String) (up : HttpRequest → HttpResult) :
    (async_get_response a sink1 q ue up).1 = (async_get_response a sink2 q ue up).1 :=
  rfl
